import Mathlib

/-!
Verification of the VLC integration (uc-intg-vlcmedia) against its design
specification.  The Python sources `client.py`, `config.py`, `driver.py`
and `media_player.py` are shallowly embedded below: pure computations become
Lean functions, stateful code becomes explicit state passing, network I/O
becomes an explicit outcome parameter, and an exception escaping a handler
becomes `Except.error`.
-/

namespace VLC

/-! ## Status documents (`GET /requests/status.json`)

Only the fields the integration consumes are modelled.  An absent JSON field
is `none`; `d.get(key, default)` in Python becomes `Option.getD`.
`information.category.meta` is flattened to an optional `Meta` record: `none`
models both a missing path and an empty meta dict (both are falsy in the
`if meta:` test of `media_player.py`). -/

structure Meta where
  title : Option String
  filename : Option String
  artist : Option String
  album : Option String
  deriving Repr, DecidableEq

structure StatusDoc where
  state : Option String
  time : Option Int
  length : Option Int
  volume : Option Nat
  meta : Option Meta
  loopFlag : Option Bool
  repeatFlag : Option Bool
  random : Option Bool
  deriving Repr, DecidableEq

/-- An all-absent status document, convenient for building concrete inputs. -/
def emptyDoc : StatusDoc :=
  { state := none, time := none, length := none, volume := none,
    meta := none, loopFlag := none, repeatFlag := none, random := none }

/-! ## The entity adapter's cached player state (`VLCMediaPlayer._attr_*`) -/

inductive PState where
  | off | on_ | playing | paused | unavailable
  deriving Repr, DecidableEq

inductive RepeatMode where
  | off | one | all
  deriving Repr, DecidableEq

structure PlayerState where
  state : PState
  volume : Nat
  muted : Bool
  media_position : Int
  media_duration : Int
  media_title : String
  media_artist : String
  media_album : String
  media_image_url : String
  repeatMode : RepeatMode
  shuffle : Bool
  deriving Repr, DecidableEq

/-- The adapter's initial cached state (`VLCMediaPlayer.__init__`). -/
def initialPlayerState : PlayerState :=
  { state := .off, volume := 0, muted := false,
    media_position := 0, media_duration := 0,
    media_title := "", media_artist := "", media_album := "",
    media_image_url := "", repeatMode := .off, shuffle := false }

/-- `VLCMediaPlayer.update_status` (media_player.py lines 211-269), as a pure
function of the previous cached state, the poll result
(`none` models `get_status()` returning `None`), and the client's album-art
URL (`VLCClient.get_album_art_url`).  Python's
`int((vlc_volume / 512) * 100)` is computed in floating point; for the
nonnegative volumes a status document carries, `vlc_volume / 512` and the
product by 100 are exact in double precision, so the truncation equals
natural-number floor division `vlc_volume * 100 / 512`. -/
def update_status (old : PlayerState) (status : Option StatusDoc)
    (artUrl : String) : PlayerState :=
  match status with
  | none => { old with state := .unavailable }
  | some doc =>
    let st :=
      match doc.state.getD "stopped" with
      | "playing" => PState.playing
      | "paused" => PState.paused
      | "stopped" => PState.off
      | _ => PState.on_
    let vlc_volume := doc.volume.getD 256
    let metaFields :=
      match doc.meta with
      | some m =>
        let title := m.title.getD (m.filename.getD "")
        let image := if title ≠ "" ∧ st ≠ PState.off then artUrl else ""
        (title, m.artist.getD "", m.album.getD "", image)
      | none => ("", "", "", "")
    { state := st,
      media_position := doc.time.getD 0,
      media_duration := doc.length.getD 0,
      volume := vlc_volume * 100 / 512,
      muted := vlc_volume == 0,
      media_title := metaFields.1,
      media_artist := metaFields.2.1,
      media_album := metaFields.2.2.1,
      media_image_url := metaFields.2.2.2,
      repeatMode :=
        if doc.loopFlag.getD false then RepeatMode.all
        else if doc.repeatFlag.getD false then RepeatMode.one
        else RepeatMode.off,
      shuffle := doc.random.getD false }

/-! ## Device client (`client.py`)

The client's only mutable state is the connectivity flag `_is_connected`
and the lazily added `_stored_volume` attribute (absent until the first
successful mute), modelled as an `Option`.  Each network exchange's result
is passed in explicitly as an outcome value. -/

structure ClientState where
  is_connected : Bool
  stored_volume : Option Nat
  deriving Repr, DecidableEq

/-- A freshly constructed `VLCClient`: not connected, nothing remembered. -/
def initialClientState : ClientState :=
  { is_connected := false, stored_volume := none }

/-- What one probe request (`GET /requests/status.json`) can come back as. -/
inductive ProbeOutcome where
  | ok200ValidJson
  | ok200InvalidJson
  | httpError
  | transportExn
  deriving Repr, DecidableEq

/-- `VLCClient.connect` (client.py lines 38-63): only a 200 response whose
body parses as JSON sets `_is_connected` and returns True; a non-200
status, unparseable body, or transport exception returns False and leaves
the flag exactly as it was (no failure path assigns it). -/
def connect (c : ClientState) (o : ProbeOutcome) : ClientState × Bool :=
  match o with
  | .ok200ValidJson => ({ c with is_connected := true }, true)
  | _ => (c, false)

/-- `VLCClient.disconnect` (client.py lines 65-70): clears the flag. -/
def disconnect (c : ClientState) : ClientState :=
  { c with is_connected := false }

/-- What one status query can come back as once it is actually issued. -/
inductive QueryOutcome where
  | ok (doc : StatusDoc)
  | ok200InvalidJson
  | httpError
  | transportExn
  deriving Repr, DecidableEq

/-- `VLCClient.get_status` (client.py lines 72-98): `None` immediately when
the client is not marked connected; otherwise the parsed document on a 200
response with valid JSON and `None` on every failure, timeouts included —
no path assigns `_is_connected`. -/
def get_status (c : ClientState) (o : QueryOutcome) :
    ClientState × Option StatusDoc :=
  if c.is_connected then
    match o with
    | .ok doc => (c, some doc)
    | _ => (c, none)
  else (c, none)

/-! ## Client against a stub device

For the mute/unmute and volume round-trip claims the remote device is a
stub that always answers: its status document reports its current native
volume, and a `volume` command with value v sets that volume to v. -/

structure MuteWorld where
  client : ClientState
  devVolume : Nat
  deriving Repr, DecidableEq

/-- `VLCClient.get_status` against the stub device: `None` when the client
is not marked connected, otherwise the device's status document. -/
def stub_get_status (w : MuteWorld) : Option StatusDoc :=
  if w.client.is_connected then
    some { emptyDoc with volume := some w.devVolume }
  else none

/-- `VLCClient.send_command "volume" val=v` against the stub device: False
without touching the device when the client is not marked connected,
otherwise the device volume becomes v and the call reports True. -/
def send_volume (w : MuteWorld) (v : Nat) : Bool × MuteWorld :=
  if w.client.is_connected then (true, { w with devVolume := v })
  else (false, w)

/-- `VLCClient.mute` (client.py lines 227-236): read the status; if it
arrived and the current volume (defaulting to 256) is positive, remember
it in `_stored_volume` and send volume 0; in every other case fall through
to `return False` without sending anything. -/
def mute (w : MuteWorld) : Bool × MuteWorld :=
  match stub_get_status w with
  | some status =>
    let current_volume := status.volume.getD 256
    if current_volume > 0 then
      let w' :=
        { w with client := { w.client with stored_volume := some current_volume } }
      send_volume w' 0
    else (false, w)
  | none => (false, w)

/-- `VLCClient.unmute` (client.py lines 238-242): send the remembered
pre-mute volume, defaulting to 256 when none was ever stored. -/
def unmute (w : MuteWorld) : Bool × MuteWorld :=
  send_volume w (w.client.stored_volume.getD 256)

/-- `VLCClient.set_volume` (client.py lines 198-203).  Python computes
`int((volume / 100) * 512)` in floating point; for 0 ≤ volume ≤ 100 the
exact quotient volume*512/100 is either an integer (when 25 divides
volume) or at least 1/25 away from one, so the double rounding never
crosses an integer and the truncation equals floor division. -/
def set_volume (w : MuteWorld) (volume : Nat) : Bool × MuteWorld :=
  send_volume w (volume * 512 / 100)

/-- A connected client bound to the stub device playing at native volume
384, with nothing remembered yet. -/
def liveWorld : MuteWorld :=
  { client := { is_connected := true, stored_volume := none }, devVolume := 384 }

/-- A connected client bound to the stub device whose volume is already 0. -/
def silentWorld : MuteWorld :=
  { client := { is_connected := true, stored_volume := none }, devVolume := 0 }

/-! ## Session manager (`driver.py`)

The module-level globals `clients`, `media_players`, `entities_ready` and
the hub-visible device state (set through `api.set_device_state`) form the
driver state.  The configured devices are an association list from device
id to its record, and each device's probe result (`VLCClient.connect`) is
supplied as a function of the device id. -/

inductive DeviceState where
  | disconnected | connecting | connected | error
  deriving Repr, DecidableEq

structure DeviceConfig where
  host : String
  port : Int
  password : String
  device_name : String
  deriving Repr, DecidableEq

structure DriverState where
  clients : List String
  media_players : List String
  available_entities : List String
  entities_ready : Bool
  device_state : DeviceState
  deriving Repr, DecidableEq

/-- The driver's globals at process start (driver.py lines 34-36). -/
def initialDriverState : DriverState :=
  { clients := [], media_players := [], available_entities := [],
    entities_ready := false, device_state := DeviceState.disconnected }

/-- The per-device loop of `_initialize_entities` (driver.py lines
115-146): construct a client, probe it; on success register the client,
the media-player adapter and the hub entity; on probe failure skip the
device and continue.  `VLCMediaPlayer.connect` always returns True
(media_player.py line 202), so the adapter is registered exactly when
the probe succeeded.  The second component counts probe calls: exactly
one per device record, whatever the outcome. -/
def init_loop (probeOk : String → Bool) :
    List (String × DeviceConfig) → DriverState → DriverState × Nat
  | [], s => (s, 0)
  | (device_id, _) :: rest, s =>
    let s' :=
      if probeOk device_id then
        { s with
          clients := s.clients ++ [device_id],
          media_players := s.media_players ++ [device_id],
          available_entities :=
            s.available_entities ++ ["vlc_" ++ device_id ++ "_media_player"] }
      else s
    let r := init_loop probeOk rest s'
    (r.1, r.2 + 1)

/-- `_initialize_entities` (driver.py lines 90-158), whose whole body runs
under `initialization_lock` (an `asyncio.Lock` with `async with`), so any
two invocations execute as one full pass after the other.  One serialized
pass: return immediately when `entities_ready` is already set; with no
configured devices report Disconnected; otherwise report Connecting,
clear all registries, run the per-device loop, and finally mark ready and
report Connected when at least one media player was created, else report
Error. -/
def initialize_entities (devices : List (String × DeviceConfig))
    (probeOk : String → Bool) (s : DriverState) : DriverState × Nat :=
  if s.entities_ready then (s, 0)
  else if devices.isEmpty then
    ({ s with device_state := DeviceState.disconnected }, 0)
  else
    let s0 :=
      { s with
        device_state := DeviceState.connecting,
        clients := [], media_players := [], available_entities := [] }
    let r := init_loop probeOk devices s0
    if r.1.media_players.isEmpty then
      ({ r.1 with device_state := DeviceState.error }, r.2)
    else
      ({ r.1 with entities_ready := true,
                  device_state := DeviceState.connected }, r.2)

/-- A sample device record for concrete instances. -/
def sampleCfg : DeviceConfig :=
  { host := "192.168.1.10", port := 8080, password := "pw",
    device_name := "Living Room VLC" }

/-! ## Setup handling (`driver.py` lines 40-87, `config.py` lines 63-71) -/

/-- The device registry held by `Config._devices`: an insertion-ordered
mapping from device id to its record. -/
abbrev Registry := List (String × DeviceConfig)

/-- `Config.add_device` (config.py lines 63-71): dictionary assignment
keyed by device id — replace when the key is present, append when new —
followed by `save()`; file persistence is outside the model. -/
def add_device (reg : Registry) (device_id : String) (cfg : DeviceConfig) :
    Registry :=
  if reg.any (fun q => q.1 == device_id) then
    reg.map (fun q => if q.1 == device_id then (device_id, cfg) else q)
  else reg ++ [(device_id, cfg)]

/-- Python `str.strip()` with no argument: remove leading and trailing
whitespace. -/
def py_strip (s : String) : String :=
  String.mk
    (((s.data.dropWhile Char.isWhitespace).reverse.dropWhile
        Char.isWhitespace).reverse)

/-- A non-empty run of decimal digits to its value, `none` otherwise. -/
def parse_digits (l : List Char) : Option Nat :=
  if !l.isEmpty && l.all Char.isDigit then
    some (l.foldl (fun n c => n * 10 + (c.toNat - 48)) 0)
  else none

/-- Python `int(str)`: optional surrounding whitespace, an optional sign,
then decimal digits; anything else raises ValueError, modelled as `none`.
(Python additionally allows underscores between digits; the setup form
never produces those and no claim depends on them.) -/
def py_int (s : String) : Option Int :=
  match (s.data.dropWhile Char.isWhitespace).reverse.dropWhile
      Char.isWhitespace |>.reverse with
  | '-' :: rest => (parse_digits rest).map (fun n => -(n : Int))
  | '+' :: rest => (parse_digits rest).map (fun n => (n : Int))
  | l => (parse_digits l).map (fun n => (n : Int))

/-- The setup request's form fields (`msg.setup_data`), each possibly
absent.  The port arrives as the raw form string. -/
structure SetupData where
  host : Option String
  port : Option String
  password : Option String
  device_name : Option String
  deriving Repr, DecidableEq

/-- `int(setup_data.get("port", 8080))` (driver.py line 50): the absent
field defaults to the integer 8080, on which `int` is the identity; a
present field is the form string, which `int` parses or rejects. -/
def parse_port (data : SetupData) : Option Int :=
  match data.port with
  | none => some 8080
  | some s => py_int s

/-- The classified setup results the handler can return. -/
inductive SetupAction where
  | complete
  | errOther
  | errConnectionRefused
  deriving Repr, DecidableEq

/-- Models `hashlib.md5(...).hexdigest()[:8]` over `host:port`
(driver.py line 69): a deterministic identifier computed from host and
port.  No claim depends on the hash's value, only on when the registry is
written, so the key is kept readable. -/
def derive_device_id (host : String) (port : Int) : String :=
  host ++ ":" ++ toString port

/-- `setup_handler` (driver.py lines 40-87) on a `DriverSetupRequest`,
with the test client's probe result passed in as `probeOk` and the device
registry threaded through; `Except.error ()` models an exception escaping
the handler.  The ordering is the source's: `int(setup_data.get("port",
8080))` runs at line 50, before the required-field check at line 54 and
before the `try` block that starts at line 60, so a malformed port
raises; inside the try, a failed probe returns the connection-refused
setup error before `config.add_device` is reached, and a successful probe
writes the record and completes (the follow-up re-initialization is the
`initialize_entities` model above; the catch-all arm for other message
types returns `errOther` and is outside this embedding). -/
def setup_handler (data : SetupData) (probeOk : Bool) (reg : Registry) :
    Except Unit (SetupAction × Registry) :=
  let host := py_strip (data.host.getD "")
  match parse_port data with
  | none => Except.error ()
  | some port =>
    let password := py_strip (data.password.getD "")
    let device_name := py_strip (data.device_name.getD "")
    if host = "" ∨ password = "" ∨ device_name = "" then
      Except.ok (SetupAction.errOther, reg)
    else if !probeOk then
      Except.ok (SetupAction.errConnectionRefused, reg)
    else
      Except.ok (SetupAction.complete,
        add_device reg (derive_device_id host port)
          { host := host, port := port, password := password,
            device_name := device_name })

end VLC

namespace VLC

/-- The status document of the C5 scenario: playing, native volume 384,
random on, loop off, repeat on. -/
def c5Doc : StatusDoc :=
  { emptyDoc with
    state := some "playing",
    volume := some 384,
    random := some true,
    loopFlag := some false,
    repeatFlag := some true }

/-- C5: on the document with state="playing", volume=384, random=true,
loop=false, repeat=true the adapter produces state playing, volume 75,
muted false, repeat one, shuffle true; and in general the repeat mode is
derived with precedence loop-flag (all) over repeat-flag (one) over off,
while the shuffle flag is copied verbatim from the random field. -/
theorem update_status_c5_mapping :
    ((update_status initialPlayerState (some c5Doc) "").state = PState.playing ∧
     (update_status initialPlayerState (some c5Doc) "").volume = 75 ∧
     (update_status initialPlayerState (some c5Doc) "").muted = false ∧
     (update_status initialPlayerState (some c5Doc) "").repeatMode = RepeatMode.one ∧
     (update_status initialPlayerState (some c5Doc) "").shuffle = true) ∧
    ∀ (old : PlayerState) (doc : StatusDoc) (art : String),
      (update_status old (some doc) art).repeatMode =
        (if doc.loopFlag.getD false then RepeatMode.all
         else if doc.repeatFlag.getD false then RepeatMode.one
         else RepeatMode.off) ∧
      (update_status old (some doc) art).shuffle = doc.random.getD false := by
  refine ⟨by decide, fun old doc art => ⟨rfl, rfl⟩⟩

/-- C6: a poll returning no status sets only the cached state field to
unavailable, leaving every other cached field unchanged; and a successful
poll fully recomputes the cached state, independently of what was cached
before (so stale fields survive only until the next successful poll). -/
theorem update_status_failure_frame :
    (∀ (old : PlayerState) (art : String),
      update_status old none art = { old with state := PState.unavailable }) ∧
    (∀ (o₁ o₂ : PlayerState) (doc : StatusDoc) (art : String),
      update_status o₁ (some doc) art = update_status o₂ (some doc) art) :=
  ⟨fun _ _ => rfl, fun _ _ _ _ => rfl⟩

/-- C10: when a successful poll's document lacks the volume field, the
adapter assumes the native default 256 and reports volume 50 and muted
false — an absent volume is neither muted nor volume 0. -/
theorem update_status_absent_volume (old : PlayerState) (doc : StatusDoc)
    (art : String) (h : doc.volume = none) :
    (update_status old (some doc) art).volume = 50 ∧
    (update_status old (some doc) art).muted = false := by
  simp [update_status, h]

/-- Witness for C10 at a concrete input: the empty document has no volume
field, and refreshing on it reports volume 50, unmuted. -/
theorem update_status_absent_volume_witness :
    (update_status initialPlayerState (some emptyDoc) "").volume = 50 ∧
    (update_status initialPlayerState (some emptyDoc) "").muted = false :=
  update_status_absent_volume initialPlayerState emptyDoc "" rfl

/-- The scaling 0-100 → 0-512 → 0-100 loses at most one unit. -/
lemma scale_512_round_trip (v : Nat) (hv : v ≤ 100) :
    v * 512 / 100 * 100 / 512 ≤ v ∧ v ≤ v * 512 / 100 * 100 / 512 + 1 := by
  revert hv; revert v; decide

/-- C4: for any volume input v in 0-100 sent through `set_volume`'s 0-512
scaling on a connected client, normalizing the resulting native device
volume back to 0-100 the way `update_status` does yields a value within
one unit of v. -/
theorem set_volume_status_round_trip (w : MuteWorld)
    (hc : w.client.is_connected = true) (v : Nat) (hv : v ≤ 100)
    (p : PlayerState) (art : String) :
    (update_status p
        (some { emptyDoc with volume := some (set_volume w v).2.devVolume })
        art).volume ≤ v ∧
    v ≤ (update_status p
        (some { emptyDoc with volume := some (set_volume w v).2.devVolume })
        art).volume + 1 := by
  have hdev : (set_volume w v).2.devVolume = v * 512 / 100 := by
    simp [set_volume, send_volume, hc]
  have hvol : ∀ x : Nat,
      (update_status p (some { emptyDoc with volume := some x }) art).volume =
        x * 100 / 512 := fun _ => rfl
  rw [hvol, hdev]
  exact scale_512_round_trip v hv

/-- Witness for C4: a connected client, input volume 37. -/
theorem set_volume_status_round_trip_witness :
    (update_status initialPlayerState
        (some { emptyDoc with volume := some (set_volume liveWorld 37).2.devVolume })
        "").volume ≤ 37 ∧
    37 ≤ (update_status initialPlayerState
        (some { emptyDoc with volume := some (set_volume liveWorld 37).2.devVolume })
        "").volume + 1 :=
  set_volume_status_round_trip liveWorld rfl 37 (by decide) initialPlayerState ""

/-- Counterexample to C3 as stated: on a connected client whose device is
already at volume 0, `mute` returns False, not the claimed true result
(client.py line 236 is reached because the `current_volume > 0` branch is
skipped). -/
theorem mute_at_zero_reports_failure : ¬ (mute silentWorld).1 = true := by
  decide

/-- C3 (amended): on a connected client, mute followed by unmute with no
intervening volume-set restores exactly the native volume observed at mute
time and both calls report success; and mute while the device volume is
already 0 sends no volume command (device and client unchanged) but
reports failure (returns False). -/
theorem mute_unmute_round_trip (w : MuteWorld)
    (hc : w.client.is_connected = true) :
    (0 < w.devVolume →
      (mute w).1 = true ∧
      (unmute (mute w).2).1 = true ∧
      (unmute (mute w).2).2.devVolume = w.devVolume) ∧
    (w.devVolume = 0 → mute w = (false, w)) := by
  constructor
  · intro hpos
    simp [mute, unmute, stub_get_status, send_volume, hc, hpos]
  · intro hzero
    simp [mute, stub_get_status, send_volume, hc, hzero]

/-- Witness for C3 at concrete inputs: the connected world at volume 384. -/
theorem mute_unmute_round_trip_witness :
    (0 < liveWorld.devVolume →
      (mute liveWorld).1 = true ∧
      (unmute (mute liveWorld).2).1 = true ∧
      (unmute (mute liveWorld).2).2.devVolume = liveWorld.devVolume) ∧
    (liveWorld.devVolume = 0 → mute liveWorld = (false, liveWorld)) :=
  mute_unmute_round_trip liveWorld rfl

/-- Counterexample to C9 as stated: a client that is marked connected and
whose probe fails (here HTTP error) is NOT left marked disconnected —
`connect`'s failure paths never assign `_is_connected`, so the flag stays
true. -/
theorem failed_probe_keeps_prior_flag :
    ¬ (connect { is_connected := true, stored_volume := none }
        ProbeOutcome.httpError).1.is_connected = false := by
  decide

/-- C9 (amended): a failed status query never changes the connectivity
flag (timeouts and all other transport failures alike — the query leaves
the whole client state untouched); a failed probe likewise leaves the
client state unchanged, so a client that was not previously connected
stays marked disconnected; the flag is cleared only by an explicit
`disconnect`. -/
theorem query_failure_preserves_flag :
    (∀ (c : ClientState) (o : QueryOutcome),
      (get_status c o).1 = c) ∧
    (∀ (c : ClientState) (o : ProbeOutcome),
      o ≠ ProbeOutcome.ok200ValidJson → (connect c o).1 = c) ∧
    (∀ c : ClientState, (disconnect c).is_connected = false) := by
  refine ⟨fun c o => ?_, fun c o ho => ?_, fun c => rfl⟩
  · unfold get_status
    split
    · cases o <;> rfl
    · rfl
  · cases o
    · exact absurd rfl ho
    · rfl
    · rfl
    · rfl

/-- Witness for C9: a failing probe outcome on a fresh client leaves it
unchanged (and the query part at a concrete failing query). -/
theorem query_failure_preserves_flag_witness :
    (connect initialClientState ProbeOutcome.httpError).1 =
      initialClientState :=
  query_failure_preserves_flag.2.1 initialClientState ProbeOutcome.httpError
    (by decide)

/-- The per-device loop issues exactly one probe per device record. -/
lemma init_loop_count (p : String → Bool)
    (ds : List (String × DeviceConfig)) :
    ∀ s : DriverState, (init_loop p ds s).2 = ds.length := by
  induction ds with
  | nil => intro s; rfl
  | cons d rest ih =>
    obtain ⟨id, c⟩ := d
    intro s
    by_cases h : p id <;> simp [init_loop, h, ih]

/-- The per-device loop never touches the readiness flag. -/
lemma init_loop_ready (p : String → Bool)
    (ds : List (String × DeviceConfig)) :
    ∀ s : DriverState,
      (init_loop p ds s).1.entities_ready = s.entities_ready := by
  induction ds with
  | nil => intro s; rfl
  | cons d rest ih =>
    obtain ⟨id, c⟩ := d
    intro s
    by_cases h : p id <;> simp [init_loop, h, ih]

/-- The media players registered by the loop are exactly the devices whose
probes succeeded, appended to whatever was registered before. -/
lemma init_loop_players (p : String → Bool)
    (ds : List (String × DeviceConfig)) :
    ∀ s : DriverState,
      (init_loop p ds s).1.media_players =
        s.media_players ++ (ds.filter (fun d => p d.1)).map Prod.fst := by
  induction ds with
  | nil => intro s; simp [init_loop]
  | cons d rest ih =>
    obtain ⟨id, c⟩ := d
    intro s
    by_cases h : p id <;> simp [init_loop, h, ih]

/-- One serialized `_initialize_entities` pass on a not-yet-ready session
with a non-empty device mapping: it probes every device exactly once, and
ends ready and Connected when some probe succeeded, not ready and in
Error when every probe failed. -/
lemma initialize_entities_spec (devices : List (String × DeviceConfig))
    (p : String → Bool) (s : DriverState)
    (hready : s.entities_ready = false) (hne : devices ≠ []) :
    (initialize_entities devices p s).2 = devices.length ∧
    ((∃ d ∈ devices, p d.1 = true) →
      (initialize_entities devices p s).1.entities_ready = true ∧
      (initialize_entities devices p s).1.device_state =
        DeviceState.connected) ∧
    ((∀ d ∈ devices, p d.1 = false) →
      (initialize_entities devices p s).1.entities_ready = false ∧
      (initialize_entities devices p s).1.device_state =
        DeviceState.error) := by
  have hempty : devices.isEmpty = false := by
    cases devices with
    | nil => exact absurd rfl hne
    | cons d ds => rfl
  simp only [initialize_entities, hready, hempty, Bool.false_eq_true,
    if_false]
  set s0 : DriverState :=
    { clients := [], media_players := [], available_entities := [],
      entities_ready := false,
      device_state := DeviceState.connecting } with hs0
  have hplayers := init_loop_players p devices s0
  have hcount := init_loop_count p devices s0
  have hrdy := init_loop_ready p devices s0
  have hs0ready : s0.entities_ready = false := by rw [hs0]
  by_cases hm : (init_loop p devices s0).1.media_players.isEmpty
  · rw [if_pos hm]
    rw [List.isEmpty_iff] at hm
    have hnil : (devices.filter (fun d => p d.1)).map Prod.fst = [] := by
      have h2 := hplayers
      rw [hm] at h2
      simpa [hs0] using h2.symm
    have hall : ∀ d ∈ devices, p d.1 = false := by
      intro d hd
      by_contra hcon
      have hpd : p d.1 = true := by
        cases hpd : p d.1 with
        | false => exact absurd hpd hcon
        | true => rfl
      have hmem : d.1 ∈ (devices.filter (fun d => p d.1)).map Prod.fst :=
        List.mem_map_of_mem Prod.fst (List.mem_filter.mpr ⟨hd, hpd⟩)
      rw [hnil] at hmem
      exact absurd hmem (List.not_mem_nil d.1)
    refine ⟨hcount, ?_, fun _ => ⟨by rw [hrdy, hs0ready], rfl⟩⟩
    intro ⟨d, hd, hpd⟩
    exact absurd hpd (by simp [hall d hd])
  · rw [if_neg hm]
    refine ⟨hcount, fun _ => ⟨rfl, rfl⟩, ?_⟩
    intro hall
    exfalso
    apply hm
    rw [List.isEmpty_iff, hplayers]
    rw [hs0]
    simp only [List.nil_append]
    rw [List.map_eq_nil_iff, List.filter_eq_nil_iff]
    intro d hd
    simp [hall d hd]

/-- When the readiness flag is already set, `_initialize_entities` returns
at once: no probe, no registry change, no hub report. -/
lemma initialize_entities_of_ready (devices : List (String × DeviceConfig))
    (p : String → Bool) (s : DriverState) (h : s.entities_ready = true) :
    initialize_entities devices p s = (s, 0) := by
  simp [initialize_entities, h]

/-- C2: after a serialized `_initialize_entities` pass over a non-empty
device mapping on a not-yet-ready session, the session is marked ready and
reports Connected if and only if at least one device's probe succeeded
(adapter creation coincides with probe success since the adapter connect
always succeeds); when every probe failed it reports Error and the
readiness flag stays unset. -/
theorem initialize_entities_ready_iff
    (devices : List (String × DeviceConfig)) (p : String → Bool)
    (s : DriverState) (hready : s.entities_ready = false)
    (hne : devices ≠ []) :
    (((initialize_entities devices p s).1.entities_ready = true ∧
      (initialize_entities devices p s).1.device_state =
        DeviceState.connected) ↔
      ∃ d ∈ devices, p d.1 = true) ∧
    ((∀ d ∈ devices, p d.1 = false) →
      (initialize_entities devices p s).1.device_state =
        DeviceState.error ∧
      (initialize_entities devices p s).1.entities_ready = false) := by
  obtain ⟨-, hpos, hneg⟩ := initialize_entities_spec devices p s hready hne
  refine ⟨⟨?_, hpos⟩, fun hall => ⟨(hneg hall).2, (hneg hall).1⟩⟩
  intro h
  by_contra hno
  push_neg at hno
  have hall : ∀ d ∈ devices, p d.1 = false := by
    intro d hd
    have := hno d hd
    simpa using this
  have h1 := (hneg hall).1
  rw [h.1] at h1
  simp at h1

/-- Witness for C2: two devices of which only the first probes
successfully — the pass ends ready and Connected. -/
theorem initialize_entities_ready_iff_witness :
    (((initialize_entities
        [("a1b2c3d4", sampleCfg), ("e5f6a7b8", sampleCfg)]
        (fun id => id == "a1b2c3d4") initialDriverState).1.entities_ready =
          true ∧
      (initialize_entities
        [("a1b2c3d4", sampleCfg), ("e5f6a7b8", sampleCfg)]
        (fun id => id == "a1b2c3d4") initialDriverState).1.device_state =
          DeviceState.connected) ↔
      ∃ d ∈ [("a1b2c3d4", sampleCfg), ("e5f6a7b8", sampleCfg)],
        (fun id => id == "a1b2c3d4") d.1 = true) ∧
    ((∀ d ∈ [("a1b2c3d4", sampleCfg), ("e5f6a7b8", sampleCfg)],
        (fun id => id == "a1b2c3d4") d.1 = false) →
      (initialize_entities
        [("a1b2c3d4", sampleCfg), ("e5f6a7b8", sampleCfg)]
        (fun id => id == "a1b2c3d4") initialDriverState).1.device_state =
          DeviceState.error ∧
      (initialize_entities
        [("a1b2c3d4", sampleCfg), ("e5f6a7b8", sampleCfg)]
        (fun id => id == "a1b2c3d4") initialDriverState).1.entities_ready =
          false) :=
  initialize_entities_ready_iff
    [("a1b2c3d4", sampleCfg), ("e5f6a7b8", sampleCfg)]
    (fun id => id == "a1b2c3d4") initialDriverState rfl (by decide)

/-- C1: two invocations of `_initialize_entities`, serialized by the
process-wide `initialization_lock` that each invocation acquires for its
entire pass, perform exactly one full registry rebuild when the session
starts not ready and some device's probe succeeds: the first pass probes
every device once and sets the readiness flag, and the second pass
observes the flag, performs zero probes, and returns with the state
untouched. -/
theorem initialize_entities_runs_once
    (devices : List (String × DeviceConfig)) (p : String → Bool)
    (s : DriverState) (hready : s.entities_ready = false)
    (hsucc : ∃ d ∈ devices, p d.1 = true) :
    (initialize_entities devices p s).2 = devices.length ∧
    (initialize_entities devices p s).1.entities_ready = true ∧
    initialize_entities devices p (initialize_entities devices p s).1 =
      ((initialize_entities devices p s).1, 0) := by
  have hne : devices ≠ [] := by
    rintro rfl
    simp at hsucc
  obtain ⟨hcount, hpos, -⟩ := initialize_entities_spec devices p s hready hne
  have h1 := (hpos hsucc).1
  exact ⟨hcount, h1, initialize_entities_of_ready devices p _ h1⟩

/-- Witness for C1: a fresh driver state, two devices, first probe
succeeds. -/
theorem initialize_entities_runs_once_witness :
    (initialize_entities [("a1b2c3d4", sampleCfg)]
        (fun _ => true) initialDriverState).2 =
      [("a1b2c3d4", sampleCfg)].length ∧
    (initialize_entities [("a1b2c3d4", sampleCfg)]
        (fun _ => true) initialDriverState).1.entities_ready = true ∧
    initialize_entities [("a1b2c3d4", sampleCfg)] (fun _ => true)
        (initialize_entities [("a1b2c3d4", sampleCfg)]
          (fun _ => true) initialDriverState).1 =
      ((initialize_entities [("a1b2c3d4", sampleCfg)]
          (fun _ => true) initialDriverState).1, 0) :=
  initialize_entities_runs_once [("a1b2c3d4", sampleCfg)] (fun _ => true)
    initialDriverState rfl (by decide)

/-- C7: a setup request whose connectivity probe fails (unreachable host)
yields the connection-refused classified setup error, and — for every
probe-failing invocation whatsoever — the device registry comes back
exactly as it went in: `config.add_device` is only reached after the
probe has succeeded. -/
theorem setup_unreachable_host (data : SetupData) (reg : Registry)
    (hhost : py_strip (data.host.getD "") ≠ "")
    (hpw : py_strip (data.password.getD "") ≠ "")
    (hname : py_strip (data.device_name.getD "") ≠ "")
    (hport : ∃ n, parse_port data = some n) :
    setup_handler data false reg =
      Except.ok (SetupAction.errConnectionRefused, reg) ∧
    ∀ (d : SetupData) (r : Registry) (a : SetupAction) (r' : Registry),
      setup_handler d false r = Except.ok (a, r') → r' = r := by
  constructor
  · obtain ⟨n, hn⟩ := hport
    simp [setup_handler, hn, hhost, hpw, hname]
  · intro d r a r' h
    simp only [setup_handler] at h
    split at h
    · exact absurd h (by simp)
    · split at h
      · simp only [Except.ok.injEq, Prod.mk.injEq] at h
        exact h.2.symm
      · simp only [Bool.not_false, if_true, Except.ok.injEq,
          Prod.mk.injEq] at h
        exact h.2.symm

/-- Witness for C7: a well-formed request for an unreachable host against
an empty registry. -/
theorem setup_unreachable_host_witness :
    setup_handler
        { host := some "10.0.0.99", port := some "8081",
          password := some "pw", device_name := some "Bedroom VLC" }
        false [] =
      Except.ok (SetupAction.errConnectionRefused, []) ∧
    ∀ (d : SetupData) (r : Registry) (a : SetupAction) (r' : Registry),
      setup_handler d false r = Except.ok (a, r') → r' = r :=
  setup_unreachable_host
    { host := some "10.0.0.99", port := some "8081",
      password := some "pw", device_name := some "Bedroom VLC" }
    [] (by decide) (by decide) (by decide) ⟨8081, by decide⟩

/-- C8 is a code bug: driver.py line 50 runs `int(setup_data.get("port",
8080))` before the `try` block beginning at line 60, so a non-numeric
port raises ValueError past the setup handler instead of producing a
classified setup error.  This theorem evaluates the embedded handler at
the failing input: the exception escapes. -/
theorem setup_malformed_port_raises :
    setup_handler
        { host := some "192.168.1.10", port := some "abc",
          password := some "pw", device_name := some "Living Room VLC" }
        true [] =
      Except.error () := rfl

end VLC
